import Mathlib

/-!
Verification development for the SATLAS2 GUI fitting pipeline
(`satlas2_gui.py`).  The numeric core of `fit_spectrum` is embedded
shallowly: machine floats become real numbers, numpy arrays become
lists, Python exceptions become `Option`/`Except` values.  The record
parser works over a first-order literal representation so that it is
executable and decidable; the physics stages work over `ℝ`.
-/

/-- Speed of light, the local constant `c = 299792458.0` of `fit_spectrum`. -/
noncomputable def cLight : ℝ := 299792458

/-- Elementary charge, the local constant `e = 1.60217653e-19` of `fit_spectrum`. -/
noncomputable def eCharge : ℝ := 1.60217653e-19

/-- The radicand of the `get_beta` expression (source line 184):
`1 - (m_u**2 * m_ion**2 * c**4) / ((e * 1000. * (appl_V - AOut) + m_u * m_ion * c**2)**2)`. -/
noncomputable def radicand (m_u m_ion appl_V aOut : ℝ) : ℝ :=
  1 - (m_u ^ 2 * m_ion ^ 2 * cLight ^ 4) /
    ((eCharge * 1000 * (appl_V - aOut) + m_u * m_ion * cLight ^ 2) ^ 2)

/-- Source `get_beta` (lines 183-184): `np.sqrt` of `radicand`, elementwise on
the retardation offsets.  `np.sqrt` of a negative float is NaN (no exception);
`Real.sqrt` returns the junk value `0` there. -/
noncomputable def get_beta (m_u m_ion appl_V aOut : ℝ) : ℝ :=
  Real.sqrt (radicand m_u m_ion appl_V aOut)

/-- Source `doppler_shift` (lines 186-190), per element.  The Python function
has no `else` branch, so a mode outside `co`/`anti` falls through and the
function returns `None`: modelled as `Option.none`. -/
noncomputable def doppler_shift (Freq beta : ℝ) (mode : String) : Option ℝ :=
  if mode = "co" then some (Freq * Real.sqrt ((1 - beta) / (1 + beta)))
  else if mode = "anti" then some (Freq * Real.sqrt ((1 + beta) / (1 - beta)))
  else none

/-- Source `doppler_shift` applied to the whole frequency and beta arrays, as in
the call on line 198.  The mode test happens once; a valid mode maps the
transform over the zipped arrays, an invalid mode yields `None`. -/
noncomputable def doppler_shiftArr (Freqs betas : List ℝ) (mode : String) :
    Option (List ℝ) :=
  if mode = "co" then
    some (List.zipWith (fun f b => f * Real.sqrt ((1 - b) / (1 + b))) Freqs betas)
  else if mode = "anti" then
    some (List.zipWith (fun f b => f * Real.sqrt ((1 + b) / (1 - b))) Freqs betas)
  else none

/-- Source `modifiedSqrt` (lines 192-195): `np.sqrt` of the input, with entries
at non-positive inputs overwritten by `1`. -/
noncomputable def modifiedSqrt (input : ℝ) : ℝ :=
  if input ≤ 0 then 1 else Real.sqrt input

/-- Lines 197-199 of the source: compute `beta` from the offsets, Doppler-shift
the raw frequencies, then rescale by `* 1e6 - freq_offset`. -/
noncomputable def corrected_x (m_u m_ion appl_V freq_offset : ℝ) (mode : String)
    (aOut freqs : List ℝ) : Option (List ℝ) :=
  (doppler_shiftArr freqs (aOut.map (get_beta m_u m_ion appl_V)) mode).map
    (List.map (fun v => v * 1000000 - freq_offset))

/-- Helper for the whitespace tokenizer: push one character onto a token
accumulator, starting a fresh token after each whitespace character. -/
def addChar (c : Char) (acc : List (List Char)) : List (List Char) :=
  if c.isWhitespace then [] :: acc
  else
    match acc with
    | [] => [[c]]
    | t :: ts => (c :: t) :: ts

/-- Python `line.strip().split()` (line 172): split on runs of whitespace,
dropping empty tokens. -/
def splitWs (cs : List Char) : List (List Char) :=
  (cs.foldr addChar []).filter (fun t => !t.isEmpty)

/-- Digits of a token read as a natural number, most significant first. -/
def natOfDigits (cs : List Char) : ℕ :=
  cs.foldl (fun n c => 10 * n + (c.toNat - '0'.toNat)) 0

/-- The parsed form of a Python float literal: sign, the mantissa digits read
as a natural number, how many of those digits are fractional, and a signed
decimal exponent.  Kept as a first-order structure so that the record parser
is decidable; the numeric value is `PyFloat.val`. -/
structure PyFloat where
  neg : Bool
  mant : ℕ
  fracLen : ℕ
  expNeg : Bool
  exp : ℕ
deriving DecidableEq, Inhabited

/-- Numeric value of a parsed float literal. -/
def PyFloat.val (x : PyFloat) : ℚ :=
  ((if x.neg then -1 else 1) * (x.mant : ℚ) / 10 ^ x.fracLen) *
    (if x.expNeg then 1 / 10 ^ x.exp else 10 ^ x.exp)

/-- Python `float(token)` on the plain literals that appear in data files:
optional sign, decimal digits with an optional fractional part, optional
decimal exponent.  (The builtin also accepts `inf`, `nan`, underscores and
surrounding whitespace; those never arise from `str.split()` tokens of a
numeric data file and are not modelled.)  Failure of the coercion is `none`,
modelling the `ValueError` that `float` raises. -/
def parseFloat (t : List Char) : Option PyFloat :=
  let ps : Bool × List Char :=
    match t with
    | '-' :: r => (true, r)
    | '+' :: r => (false, r)
    | r => (false, r)
  let sgn := ps.1
  let cs := ps.2
  let ip := cs.takeWhile Char.isDigit
  let cs1 := cs.dropWhile Char.isDigit
  let fps : List Char × List Char :=
    match cs1 with
    | '.' :: r => (r.takeWhile Char.isDigit, r.dropWhile Char.isDigit)
    | r => ([], r)
  let fp := fps.1
  let cs2 := fps.2
  if ip.isEmpty && fp.isEmpty then none
  else
    let mant := natOfDigits (ip ++ fp)
    match cs2 with
    | [] => some ⟨sgn, mant, fp.length, false, 0⟩
    | c :: r =>
      if c = 'e' ∨ c = 'E' then
        let es : Bool × List Char :=
          match r with
          | '-' :: r2 => (true, r2)
          | '+' :: r2 => (false, r2)
          | r2 => (false, r2)
        let ed := es.2.takeWhile Char.isDigit
        let r2 := es.2.dropWhile Char.isDigit
        if ed.isEmpty ∨ !r2.isEmpty then none
        else some ⟨sgn, mant, fp.length, es.1, natOfDigits ed⟩
      else none

/-- Lines 171-172 of the source: drop the first three lines of the file, split
every remaining line on whitespace, and keep only the rows with at least 7
tokens. -/
def rowsOf (lines : List String) : List (List (List Char)) :=
  ((lines.drop 3).map (fun l => splitWs l.data)).filter
    (fun r => decide (7 ≤ r.length))

/-- Python `float(row[i])`: look up token `i` of a row and coerce it. -/
def parseField (r : List (List Char)) (i : ℕ) : Option PyFloat :=
  (r.get? i).bind parseFloat

/-- One of the three list comprehensions on lines 173-175: coerce field `i` of
every row, failing (as `float` does) on the first non-numeric field. -/
def parseCol (i : ℕ) : List (List (List Char)) → Option (List PyFloat)
  | [] => some []
  | r :: rs =>
    match parseField r i, parseCol i rs with
    | some v, some vs => some (v :: vs)
    | _, _ => none

/-- Lines 170-175 of the source: the record parser.  Any coercion failure is
caught by the surrounding `try` (line 176) and rejects the whole file, so the
result is `none` exactly when some required field of a kept row fails to
coerce. -/
def parseRecords (lines : List String) :
    Option (List PyFloat × List PyFloat × List PyFloat) :=
  match parseCol 0 (rowsOf lines), parseCol 3 (rowsOf lines),
      parseCol 5 (rowsOf lines) with
  | some a, some y, some fr => some (a, y, fr)
  | _, _, _ => none

/-- Failure kinds of the `fit_spectrum` data pipeline.  `fileError` is the
caught "File loading failed" branch (line 177); `typeError` is the uncaught
Python `TypeError` raised on line 199 when `doppler_shift` returned `None`.
`invalidModeError` and `physicsDomainError` are the failure kinds named by the
specification; they appear here only so that statements about them can be
written — the code-derived pipeline below never produces them. -/
inductive PipeErr where
  | fileError
  | typeError
  | invalidModeError
  | physicsDomainError
deriving DecidableEq

/-- The data-preparation slice of `fit_spectrum` (lines 169-199): parse the
records, compute `beta`, Doppler-shift and rescale.  The `.ok` payload is the
`(x, y)` pair handed to the external fitting engine on lines 207-208, so a
`.error` result means the engine is never invoked. -/
noncomputable def fit_spectrum_data (m_u m_ion appl_V freq_offset : ℝ)
    (mode : String) (lines : List String) : Except PipeErr (List ℝ × List ℝ) :=
  match parseRecords lines with
  | none => Except.error PipeErr.fileError
  | some (aOut, y, freqs) =>
    match corrected_x m_u m_ion appl_V freq_offset mode
        (aOut.map (fun p => (p.val : ℝ))) (freqs.map (fun p => (p.val : ℝ))) with
    | none => Except.error PipeErr.typeError
    | some xs => Except.ok (xs, y.map (fun p => (p.val : ℝ)))

/-- Plot artifacts drawn on lines 221-229. -/
structure PlotData where
  x : List ℝ
  y : List ℝ
  curve_x : List ℝ
  curve_y : List ℝ
  title : String

/-- The display state mutated by `fit_spectrum`: the report text widget and
the plot canvas. -/
structure GuiState where
  result_text : String
  plot : Option PlotData

/-- The `try`/`except` block on lines 216-232: if `f.fit()` (or `reportFit`)
raises, the handler only shows a message box and the display state is
untouched; on success the report text is replaced and the new plot drawn.
The external engine outcome is a parameter (`Except` of its report). -/
def fitStage (st : GuiState) (engine : Except String String)
    (newPlot : PlotData) : GuiState :=
  match engine with
  | Except.ok report => { result_text := report, plot := some newPlot }
  | Except.error _ => st

/-- Sample input for the physics stage: with `m_u = 1/c^2`, `m_ion = 1`,
`appl_V = 1/(1000 e)` and offset `0`, the accelerating-energy term equals the
mass-energy term, so the radicand is `1 - 1/4 = 3/4`. -/
theorem radicand_sample :
    radicand (1 / cLight ^ 2) 1 (1 / (1000 * eCharge)) 0 = 3 / 4 := by
  have hc : cLight ≠ 0 := by norm_num [cLight]
  have he : eCharge ≠ 0 := by norm_num [eCharge]
  rw [radicand]
  field_simp
  norm_num [cLight, eCharge]

/-- Sample unphysical input: a net decelerating potential makes the energy
term `1/2` of the mass-energy term, so the radicand is `1 - 4 = -3`. -/
theorem radicand_neg_sample :
    radicand (1 / cLight ^ 2) 1 (1 - 1 / (2000 * eCharge)) 1 = -3 := by
  have hc : cLight ≠ 0 := by norm_num [cLight]
  have he : eCharge ≠ 0 := by norm_num [eCharge]
  rw [radicand]
  field_simp
  norm_num [cLight, eCharge]

/-- Numeric evaluation of the square root of four. -/
theorem real_sqrt_four : Real.sqrt 4 = 2 := by
  rw [show (4:ℝ) = 2 ^ 2 by norm_num, Real.sqrt_sq (by norm_num : (0:ℝ) ≤ 2)]

/-- C1: for every record whose radicand lies in `[0, 1)`, the computed
velocity fraction is `sqrt(1 - (m_u^2 m_ion^2 c^4) / (e 1000 (appl_V - AOut)
+ m_u m_ion c^2)^2)` with `e = 1.60217653e-19`, `c = 299792458`, and it lies
in `[0, 1)`. -/
theorem get_beta_formula_range (m_u m_ion appl_V aOut : ℝ)
    (h0 : 0 ≤ radicand m_u m_ion appl_V aOut)
    (h1 : radicand m_u m_ion appl_V aOut < 1) :
    get_beta m_u m_ion appl_V aOut =
      Real.sqrt (1 - (m_u ^ 2 * m_ion ^ 2 * (299792458 : ℝ) ^ 4) /
        ((1.60217653e-19 * 1000 * (appl_V - aOut) +
          m_u * m_ion * (299792458 : ℝ) ^ 2) ^ 2)) ∧
    0 ≤ get_beta m_u m_ion appl_V aOut ∧ get_beta m_u m_ion appl_V aOut < 1 := by
  refine ⟨rfl, Real.sqrt_nonneg _, ?_⟩
  rw [get_beta]
  exact (Real.sqrt_lt' one_pos).mpr (by rw [one_pow]; exact h1)

/-- Witness for C1 at the sample input: the radicand is `3/4 ∈ [0,1)` and the
theorem yields `beta < 1` there. -/
theorem get_beta_formula_range_witness :
    0 ≤ radicand (1 / cLight ^ 2) 1 (1 / (1000 * eCharge)) 0 ∧
    get_beta (1 / cLight ^ 2) 1 (1 / (1000 * eCharge)) 0 < 1 :=
  ⟨by rw [radicand_sample]; norm_num,
   (get_beta_formula_range (1 / cLight ^ 2) 1 (1 / (1000 * eCharge)) 0
      (by rw [radicand_sample]; norm_num)
      (by rw [radicand_sample]; norm_num)).2.2⟩

/-- C7: the uncertainty function attached to the data source is
`modifiedSqrt`, which returns `sqrt v` for positive counts and `1` otherwise;
hence the induced per-point weight `1 / modifiedSqrt v` is `1 / sqrt v` for
`v > 0` and `1` for `v ≤ 0`, with `weight 4 = 1/2`, `weight 0 = 1`,
`weight (-3) = 1`. -/
theorem modifiedSqrt_weight_spec :
    (∀ v : ℝ, 0 < v →
      modifiedSqrt v = Real.sqrt v ∧ 1 / modifiedSqrt v = 1 / Real.sqrt v) ∧
    (∀ v : ℝ, v ≤ 0 → modifiedSqrt v = 1 ∧ 1 / modifiedSqrt v = 1) ∧
    1 / modifiedSqrt 4 = 1 / 2 ∧ 1 / modifiedSqrt 0 = 1 ∧
    1 / modifiedSqrt (-3) = 1 := by
  refine ⟨fun v hv => ?_, fun v hv => ?_, ?_, ?_, ?_⟩
  · rw [modifiedSqrt, if_neg (not_le.mpr hv)]
    exact ⟨rfl, rfl⟩
  · rw [modifiedSqrt, if_pos hv]
    norm_num
  · rw [modifiedSqrt, if_neg (by norm_num : ¬ (4:ℝ) ≤ 0), real_sqrt_four]
  · rw [modifiedSqrt, if_pos (le_refl (0:ℝ))]
    norm_num
  · rw [modifiedSqrt, if_pos (by norm_num : (-3:ℝ) ≤ 0)]
    norm_num

/-- Witness for C7 at concrete counts `9` and `-1`. -/
theorem modifiedSqrt_weight_spec_witness :
    modifiedSqrt 9 = Real.sqrt 9 ∧ modifiedSqrt (-1) = 1 :=
  ⟨(modifiedSqrt_weight_spec.1 9 (by norm_num)).1,
   (modifiedSqrt_weight_spec.2.1 (-1) (by norm_num)).1⟩

/-- C8: for `beta ∈ [0, 1)`, applying the `co` transform and then the `anti`
transform with the same `beta` returns the original raw frequency exactly
(over the reals). -/
theorem doppler_shift_roundtrip (f beta : ℝ) (h0 : 0 ≤ beta) (h1 : beta < 1) :
    (doppler_shift f beta "co").bind (fun g => doppler_shift g beta "anti") =
      some f := by
  have hp : (0:ℝ) < 1 + beta := by linarith
  have hm : (0:ℝ) < 1 - beta := by linarith
  have key : f * Real.sqrt ((1 - beta) / (1 + beta)) *
      Real.sqrt ((1 + beta) / (1 - beta)) = f := by
    rw [mul_assoc, ← Real.sqrt_mul (div_nonneg hm.le hp.le)]
    rw [show (1 - beta) / (1 + beta) * ((1 + beta) / (1 - beta)) = 1 by
      field_simp]
    rw [Real.sqrt_one, mul_one]
  simp only [doppler_shift, if_true]
  rw [Option.some_bind, if_neg (by decide : ¬ ("anti" : String) = "co")]
  exact congrArg some key

/-- Witness for C8 at `f = 7`, `beta = 1/2`. -/
theorem doppler_shift_roundtrip_witness :
    (doppler_shift 7 (1/2) "co").bind
      (fun g => doppler_shift g (1/2) "anti") = some 7 :=
  doppler_shift_roundtrip 7 (1/2) (by norm_num) (by norm_num)

/-- C10: when the external engine raises at the fitting stage, the handler on
line 231 only shows a message box, so the previously displayed report text
and the previously drawn plot are left unchanged. -/
theorem fitStage_error_frame (st : GuiState) (msg : String) (p : PlotData) :
    fitStage st (Except.error msg) p = st ∧
    (fitStage st (Except.error msg) p).result_text = st.result_text ∧
    (fitStage st (Except.error msg) p).plot = st.plot :=
  ⟨rfl, rfl, rfl⟩

/-- If every row's field `i` coerces, the comprehension succeeds and returns
the coerced fields in input order. -/
theorem parseCol_eq_map (i : ℕ) (rows : List (List (List Char)))
    (h : ∀ r ∈ rows, (parseField r i).isSome) :
    parseCol i rows = some (rows.map (fun r => (parseField r i).iget)) := by
  induction rows with
  | nil => rfl
  | cons r rs ih =>
    obtain ⟨v, hv⟩ := Option.isSome_iff_exists.mp (h r (List.mem_cons_self r rs))
    rw [parseCol, hv, ih (fun x hx => h x (List.mem_cons_of_mem r hx))]
    simp [hv]

/-- If some row's field `i` fails to coerce, the whole comprehension fails. -/
theorem parseCol_eq_none (i : ℕ) (rows : List (List (List Char)))
    (r : List (List Char)) (hr : r ∈ rows) (hn : parseField r i = none) :
    parseCol i rows = none := by
  induction rows with
  | nil => cases hr
  | cons a rs ih =>
    rcases List.mem_cons.mp hr with h | h
    · subst h
      rw [parseCol, hn]
    · rw [parseCol, ih h]
      cases parseField a i <;> rfl

/-- C5: the record parser skips exactly the first three lines, splits the rest
on whitespace, never includes a row with fewer than 7 tokens, includes (in
input order) every row with at least 7 tokens when the required fields are
numeric, extracting field 0, field 3 and field 5 coerced to float, as three
equal-length index-aligned sequences. -/
theorem parseRecords_complete (lines : List String)
    (h : ∀ r ∈ rowsOf lines, (parseField r 0).isSome ∧
      (parseField r 3).isSome ∧ (parseField r 5).isSome) :
    parseRecords lines =
      some ((rowsOf lines).map (fun r => (parseField r 0).iget),
            (rowsOf lines).map (fun r => (parseField r 3).iget),
            (rowsOf lines).map (fun r => (parseField r 5).iget)) ∧
    (∀ r ∈ rowsOf lines, 7 ≤ r.length) ∧
    List.Sublist (rowsOf lines) ((lines.drop 3).map (fun l => splitWs l.data)) ∧
    ((rowsOf lines).map (fun r => (parseField r 0).iget)).length =
      (rowsOf lines).length ∧
    ((rowsOf lines).map (fun r => (parseField r 3).iget)).length =
      (rowsOf lines).length ∧
    ((rowsOf lines).map (fun r => (parseField r 5).iget)).length =
      (rowsOf lines).length := by
  refine ⟨?_, ?_, List.filter_sublist _, by simp, by simp, by simp⟩
  · rw [parseRecords, parseCol_eq_map 0 _ (fun r hr => (h r hr).1),
      parseCol_eq_map 3 _ (fun r hr => (h r hr).2.1),
      parseCol_eq_map 5 _ (fun r hr => (h r hr).2.2)]
  · intro r hr
    exact of_decide_eq_true (List.mem_filter.mp hr).2

/-- Witness for C5 on a concrete file: the three header lines are skipped, the
short row is dropped, the two rows with at least 7 tokens are kept in order. -/
theorem parseRecords_complete_witness :
    parseRecords ["m1", "m2", "hdr", "1 2 3 4 5 6 7", "1 2 3",
        "8 9 10 11 12 13 14 15"] =
      some ([⟨false, 1, 0, false, 0⟩, ⟨false, 8, 0, false, 0⟩],
            [⟨false, 4, 0, false, 0⟩, ⟨false, 11, 0, false, 0⟩],
            [⟨false, 6, 0, false, 0⟩, ⟨false, 13, 0, false, 0⟩]) :=
  (parseRecords_complete
    ["m1", "m2", "hdr", "1 2 3 4 5 6 7", "1 2 3", "8 9 10 11 12 13 14 15"]
    (by decide)).1.trans (by decide)

/-- C6 counterexample: a file with a single usable row (fewer than 4) is not
rejected — the parser succeeds, contradicting the claimed `DataFormatError`
on files with fewer than 4 usable lines. -/
theorem parseRecords_small_file_counterexample :
    (rowsOf ["m1", "m2", "hdr", "1 2 3 4 5 6 7"]).length = 1 ∧
    parseRecords ["m1", "m2", "hdr", "1 2 3 4 5 6 7"] =
      some ([⟨false, 1, 0, false, 0⟩], [⟨false, 4, 0, false, 0⟩],
            [⟨false, 6, 0, false, 0⟩]) :=
  ⟨by decide, by decide⟩

/-- C6 amended: the parser rejects the file wholesale when any required field
of a usable row fails numeric coercion; no minimum count of usable rows is
enforced. -/
theorem parseRecords_rejects_bad_field (lines : List String)
    (h : ∃ r ∈ rowsOf lines, parseField r 0 = none ∨ parseField r 3 = none ∨
      parseField r 5 = none) :
    parseRecords lines = none := by
  obtain ⟨r, hr, hn⟩ := h
  rw [parseRecords]
  rcases hn with hn | hn | hn
  · rw [parseCol_eq_none 0 _ r hr hn]
  · rw [parseCol_eq_none 3 _ r hr hn]
    cases parseCol 0 (rowsOf lines) <;> rfl
  · rw [parseCol_eq_none 5 _ r hr hn]
    cases parseCol 0 (rowsOf lines) <;> cases parseCol 3 (rowsOf lines) <;> rfl

/-- Witness for the amended C6: a usable row whose first field is not numeric
makes the parser reject the whole file. -/
theorem parseRecords_rejects_bad_field_witness :
    parseRecords ["m1", "m2", "hdr", "x 2 3 4 5 6 7"] = none :=
  parseRecords_rejects_bad_field ["m1", "m2", "hdr", "x 2 3 4 5 6 7"]
    (by decide)

/-- At the sample physical input the velocity fraction is positive. -/
theorem get_beta_sample_pos :
    0 < get_beta (1 / cLight ^ 2) 1 (1 / (1000 * eCharge)) 0 := by
  rw [get_beta]
  exact Real.sqrt_pos.mpr (by rw [radicand_sample]; norm_num)

/-- With a positive `beta` the co-propagating factor is below one. -/
theorem sqrt_ratio_lt_one (beta : ℝ) (hb : 0 < beta) :
    Real.sqrt ((1 - beta) / (1 + beta)) < 1 := by
  have hp : (0:ℝ) < 1 + beta := by linarith
  refine (Real.sqrt_lt' one_pos).mpr ?_
  rw [one_pow, div_lt_one hp]
  linarith

/-- C2 counterexample: at an input whose radicand is `-3 < 0` the pipeline
does not fail — `np.sqrt` silently yields NaN (junk `0` in the real model),
the Doppler stage runs on it and the engine is handed a value.  No
`PhysicsDomainError` is raised. -/
theorem physics_domain_counterexample :
    radicand (1 / cLight ^ 2) 1 (1 - 1 / (2000 * eCharge)) 1 < 0 ∧
    fit_spectrum_data (1 / cLight ^ 2) 1 (1 - 1 / (2000 * eCharge)) 0 "co"
        ["m1", "m2", "hdr", "1 2 3 5 4 2 0"] =
      Except.ok ([2000000], [5]) := by
  refine ⟨by rw [radicand_neg_sample]; norm_num, ?_⟩
  have hp : parseRecords ["m1", "m2", "hdr", "1 2 3 5 4 2 0"] =
      some ([⟨false, 1, 0, false, 0⟩], [⟨false, 5, 0, false, 0⟩],
            [⟨false, 2, 0, false, 0⟩]) := by decide
  have hv1 : (((⟨false, 1, 0, false, 0⟩ : PyFloat).val : ℚ) : ℝ) = 1 := by
    norm_num [PyFloat.val]
  have hv2 : (((⟨false, 2, 0, false, 0⟩ : PyFloat).val : ℚ) : ℝ) = 2 := by
    norm_num [PyFloat.val]
  have hv5 : (((⟨false, 5, 0, false, 0⟩ : PyFloat).val : ℚ) : ℝ) = 5 := by
    norm_num [PyFloat.val]
  have hb : get_beta (1 / cLight ^ 2) 1 (1 - 1 / (2000 * eCharge)) 1 = 0 := by
    rw [get_beta, radicand_neg_sample]
    exact Real.sqrt_eq_zero'.mpr (by norm_num)
  simp only [fit_spectrum_data, hp, corrected_x, doppler_shiftArr,
    List.map_cons, List.map_nil, hv1, hv2, hv5, hb, eq_self_iff_true, if_true,
    List.zipWith_cons_cons, List.zipWith_nil_right, Option.map_some']
  norm_num [Real.sqrt_one]

/-- C2 amended: the code performs no domain check.  When the radicand is
negative, `get_beta` still returns a value (NaN in the code, the junk value
`0` in the real-valued model), and whenever the file parses the pipeline in
mode `co` hands the engine a value instead of raising `PhysicsDomainError`. -/
theorem get_beta_no_domain_check (m_u m_ion appl_V aOut : ℝ)
    (h : radicand m_u m_ion appl_V aOut < 0) :
    get_beta m_u m_ion appl_V aOut = 0 ∧
    ∀ (freq_offset : ℝ) (lines : List String)
      (t : List PyFloat × List PyFloat × List PyFloat),
      parseRecords lines = some t →
      ∃ v, fit_spectrum_data m_u m_ion appl_V freq_offset "co" lines =
        Except.ok v := by
  refine ⟨by rw [get_beta]; exact Real.sqrt_eq_zero'.mpr h.le, ?_⟩
  intro freq_offset lines t hp
  obtain ⟨a, y, fr⟩ := t
  simp only [fit_spectrum_data, hp, corrected_x, doppler_shiftArr,
    eq_self_iff_true, if_true, Option.map_some']
  exact ⟨_, rfl⟩

/-- Witness for the amended C2 at the sample unphysical input. -/
theorem get_beta_no_domain_check_witness :
    get_beta (1 / cLight ^ 2) 1 (1 - 1 / (2000 * eCharge)) 1 = 0 :=
  (get_beta_no_domain_check (1 / cLight ^ 2) 1 (1 - 1 / (2000 * eCharge)) 1
    (by rw [radicand_neg_sample]; norm_num)).1

/-- C3 counterexample: with `beam_mode = "side"` the pipeline fails with the
uncaught `TypeError` of line 199 (`None * 1e6`), not with an
`InvalidModeError`. -/
theorem invalid_mode_counterexample :
    fit_spectrum_data 1 1 1 0 "side" ["m1", "m2", "hdr", "1 2 3 4 5 6 7"] =
      Except.error PipeErr.typeError ∧
    (Except.error PipeErr.typeError : Except PipeErr (List ℝ × List ℝ)) ≠
      Except.error PipeErr.invalidModeError := by
  constructor
  · have hp : parseRecords ["m1", "m2", "hdr", "1 2 3 4 5 6 7"] =
        some ([⟨false, 1, 0, false, 0⟩], [⟨false, 4, 0, false, 0⟩],
              [⟨false, 6, 0, false, 0⟩]) := by decide
    simp only [fit_spectrum_data, hp, corrected_x, doppler_shiftArr]
    rw [if_neg (by decide : ¬ ("side" : String) = "co"),
      if_neg (by decide : ¬ ("side" : String) = "anti")]
    rfl
  · intro hcontra
    exact absurd (Except.error.inj hcontra) (by decide)

/-- C3 amended: for every mode outside `co`/`anti`, on any file that parses,
the pipeline fails before the fitting engine is invoked — but with the
uncaught `TypeError` of line 199 (`doppler_shift` returned `None` and the
rescaling step multiplies it), not with a dedicated `InvalidModeError`. -/
theorem fit_spectrum_data_invalid_mode (m_u m_ion appl_V freq_offset : ℝ)
    (mode : String) (h1 : mode ≠ "co") (h2 : mode ≠ "anti")
    (lines : List String) (t : List PyFloat × List PyFloat × List PyFloat)
    (hp : parseRecords lines = some t) :
    fit_spectrum_data m_u m_ion appl_V freq_offset mode lines =
      Except.error PipeErr.typeError := by
  obtain ⟨a, y, fr⟩ := t
  simp only [fit_spectrum_data, hp, corrected_x, doppler_shiftArr,
    if_neg h1, if_neg h2, Option.map_none']

/-- Witness for the amended C3 with mode `"xyz"`. -/
theorem fit_spectrum_data_invalid_mode_witness :
    fit_spectrum_data 1 1 1 0 "xyz" ["m1", "m2", "hdr", "1 2 3 4 5 6 7"] =
      Except.error PipeErr.typeError :=
  fit_spectrum_data_invalid_mode 1 1 1 0 "xyz" (by decide) (by decide)
    ["m1", "m2", "hdr", "1 2 3 4 5 6 7"]
    ([⟨false, 1, 0, false, 0⟩], [⟨false, 4, 0, false, 0⟩],
     [⟨false, 6, 0, false, 0⟩]) (by decide)

/-- C9 counterexample: a well-formed row with raw frequency `0` and positive
`beta` yields a corrected entry equal to — not strictly less than — the
raw-frequency-scaled value, so the strict inequality claimed for every
well-formed row fails. -/
theorem corrected_x_co_zero_freq_counterexample :
    0 < get_beta (1 / cLight ^ 2) 1 (1 / (1000 * eCharge)) 0 ∧
    corrected_x (1 / cLight ^ 2) 1 (1 / (1000 * eCharge)) 508332000 "co"
      [0] [0] = some [(0 : ℝ) * 1000000 - 508332000] ∧
    ¬ ((0 : ℝ) * 1000000 - 508332000 < (0 : ℝ) * 1000000 - 508332000) := by
  refine ⟨get_beta_sample_pos, ?_, lt_irrefl _⟩
  simp only [corrected_x, doppler_shiftArr, List.map_cons, List.map_nil,
    eq_self_iff_true, if_true, List.zipWith_cons_cons, List.zipWith_nil_right,
    Option.map_some']
  norm_num

/-- C9 amended: in mode `co`, with `beta[i] > 0` and (additionally to the
original claim) `f_raw[i] > 0`, the corrected series has one entry per row,
each equal to `f_rest[i] * 1e6 - freq_offset`, and each strictly less than
`f_raw[i] * 1e6 - freq_offset`.  (The raw counterexample shows strictness
fails for `f_raw = 0`.) -/
theorem corrected_x_co_strict (m_u m_ion appl_V freq_offset : ℝ)
    (aOut freqs : List ℝ) (hlen : aOut.length = freqs.length)
    (hb : ∀ i (h : i < aOut.length),
      0 < get_beta m_u m_ion appl_V (aOut.get ⟨i, h⟩))
    (hf : ∀ i (h : i < freqs.length), 0 < freqs.get ⟨i, h⟩) :
    ∃ xs, corrected_x m_u m_ion appl_V freq_offset "co" aOut freqs = some xs ∧
      xs.length = freqs.length ∧
      ∀ i (hx : i < xs.length) (h1 : i < freqs.length) (h2 : i < aOut.length),
        xs.get ⟨i, hx⟩ =
          freqs.get ⟨i, h1⟩ *
              Real.sqrt ((1 - get_beta m_u m_ion appl_V (aOut.get ⟨i, h2⟩)) /
                (1 + get_beta m_u m_ion appl_V (aOut.get ⟨i, h2⟩))) *
              1000000 - freq_offset ∧
        xs.get ⟨i, hx⟩ < freqs.get ⟨i, h1⟩ * 1000000 - freq_offset := by
  refine ⟨List.map (fun v => v * 1000000 - freq_offset)
      (List.zipWith (fun f b => f * Real.sqrt ((1 - b) / (1 + b))) freqs
        (aOut.map (get_beta m_u m_ion appl_V))), ?_, ?_, ?_⟩
  · simp only [corrected_x, doppler_shiftArr, eq_self_iff_true, if_true,
      Option.map_some']
  · simp [hlen]
  · intro i hx h1 h2
    have hget : (List.map (fun v => v * 1000000 - freq_offset)
        (List.zipWith (fun f b => f * Real.sqrt ((1 - b) / (1 + b))) freqs
          (aOut.map (get_beta m_u m_ion appl_V)))).get ⟨i, hx⟩ =
        freqs.get ⟨i, h1⟩ *
          Real.sqrt ((1 - get_beta m_u m_ion appl_V (aOut.get ⟨i, h2⟩)) /
            (1 + get_beta m_u m_ion appl_V (aOut.get ⟨i, h2⟩))) *
          1000000 - freq_offset := by
      simp [List.get_eq_getElem, List.getElem_map, List.getElem_zipWith]
    refine ⟨hget, ?_⟩
    rw [hget]
    have hlt : freqs.get ⟨i, h1⟩ *
        Real.sqrt ((1 - get_beta m_u m_ion appl_V (aOut.get ⟨i, h2⟩)) /
          (1 + get_beta m_u m_ion appl_V (aOut.get ⟨i, h2⟩))) <
        freqs.get ⟨i, h1⟩ := by
      have := mul_lt_mul_of_pos_left
        (sqrt_ratio_lt_one _ (hb i h2)) (hf i h1)
      simpa using this
    have := mul_lt_mul_of_pos_right hlt (by norm_num : (0:ℝ) < 1000000)
    linarith

/-- Witness for the amended C9 on a one-row record with positive `beta` and
positive raw frequency. -/
theorem corrected_x_co_strict_witness :
    ∃ xs, corrected_x (1 / cLight ^ 2) 1 (1 / (1000 * eCharge)) 0 "co"
      [0] [1] = some xs ∧ xs.length = 1 := by
  obtain ⟨xs, hsome, hlen1, _⟩ :=
    corrected_x_co_strict (1 / cLight ^ 2) 1 (1 / (1000 * eCharge)) 0 [0] [1]
      rfl
      (fun i h => by
        have hi : i = 0 := Nat.lt_one_iff.mp h
        subst hi
        simpa using get_beta_sample_pos)
      (fun i h => by
        have hi : i = 0 := Nat.lt_one_iff.mp h
        subst hi
        simp)
  exact ⟨xs, hsome, hlen1⟩
